import Mathlib

/-!
Verification development for the multimodal chatbot backend.

The definitions below are a shallow embedding of the request-routing
workflow in `backend/graphs/multimodal_graph.py` and the chains in
`backend/chains/multimodal_chain.py`.  Remote collaborators (the Bedrock
model calls, the image downloader and the image normalizer) are modelled
as an oracle record `Gateway` whose operations return `Except`/`Option`
values; Python dictionaries with string keys are modelled as association
lists with Python's replace-in-place update semantics; Python truthiness
of optional strings ("" and None are falsy) is modelled explicitly.
-/

namespace AugmentoChat

/-- `MessageType` enum from `backend/schemas/chat.py`. -/
inductive MessageType where
  | text
  | image
  | multimodal
deriving DecidableEq, Repr

/-- Conversation messages (`HumanMessage` / `AIMessage`), reduced to their
content string. -/
inductive Msg where
  | human (content : String)
  | ai (content : String)
deriving DecidableEq, Repr

/-- Values stored in the graph's `metadata` dictionary. Collaborator
metadata blobs are opaque strings. -/
inductive MetaVal where
  | str (s : String)
  | strList (l : List String)
  | mtype (m : MessageType)
  | nat (n : Nat)
  | blob (b : String)
deriving DecidableEq, Repr

/-- Python dict with string keys, insertion-ordered. -/
abbrev Metadata := List (String × MetaVal)

/-- Python dict assignment `d[k] = v`: replaces in place if the key is
present, otherwise appends. -/
def dictSet (d : Metadata) (k : String) (v : MetaVal) : Metadata :=
  match d with
  | [] => [(k, v)]
  | (k', v') :: rest => if k' = k then (k, v) :: rest else (k', v') :: dictSet rest k v

/-- Python dict lookup `d.get(k)`. -/
def dictGet (d : Metadata) (k : String) : Option MetaVal :=
  match d with
  | [] => none
  | (k', v') :: rest => if k' = k then some v' else dictGet rest k

/-- Values appearing in the top-level response dictionary returned by
`process_message`. -/
inductive EnvVal where
  | str (s : String)
  | mtype (m : MessageType)
  | dict (d : Metadata)
  | pyNone
deriving DecidableEq, Repr

/-- The dictionary returned by `process_message`. -/
abbrev Envelope := List (String × EnvVal)

def envLookup (env : Envelope) (k : String) : Option EnvVal :=
  match env with
  | [] => none
  | (k', v') :: rest => if k' = k then some v' else envLookup rest k

/-- Python truthiness of an optional string: `None` and `""` are falsy. -/
def pyTruthyOptStr : Option String → Bool
  | none => false
  | some s => s ≠ ""

/-- `needle.isPrefixOf haystack` over char lists, written out to keep the
development self-contained. -/
def listStartsWith : List Char → List Char → Bool
  | [], _ => true
  | _ :: _, [] => false
  | a :: as, b :: bs => a = b && listStartsWith as bs

/-- Substring containment over char lists. -/
def listContainsSub (needle : List Char) : List Char → Bool
  | [] => needle.isEmpty
  | c :: rest => listStartsWith needle (c :: rest) || listContainsSub needle rest

/-- Python's `needle in haystack` for strings. -/
def pyStrIn (needle haystack : String) : Bool :=
  listContainsSub needle.data haystack.data

/-- Python's `str.lower()` (character-wise ASCII lowercasing, which agrees
with `.lower()` on the ASCII keyword tests the router performs). -/
def pyLower (s : String) : String :=
  String.mk (s.data.map Char.toLower)

instance : DecidableEq (Except String String) := fun a b =>
  match a, b with
  | .error e, .error e' => decidable_of_iff (e = e') (by simp)
  | .ok v, .ok v' => decidable_of_iff (v = v') (by simp)
  | .error _, .ok _ => isFalse (by simp)
  | .ok _, .error _ => isFalse (by simp)

/-- Result of `ImageAnalysisChain.run`: the `analysis` text plus an opaque
metadata blob. -/
structure AnalysisResult where
  analysis : String
  metadata : String
deriving DecidableEq, Repr

/-- Result of `ConversationalChain.run`: the `response` text plus an opaque
metadata blob. -/
structure TextResult where
  response : String
  metadata : String
deriving DecidableEq, Repr

/-- Result of `ImageGenerationChain.run`: the generated `images` plus an
opaque metadata blob. -/
structure ImageGenResult where
  images : List String
  metadata : String
deriving DecidableEq, Repr

/-- Oracle for the collaborators the workflow invokes.

* `getImageFromUrl` models `utils.image_utils.get_image_from_url`, which
  catches every exception internally and returns `None` on any failure, so
  it is `Option`-valued, not `Except`-valued.
* `processImageForBedrock` models `utils.image_utils.process_image_for_bedrock`
  (the image normalizer), which may raise.
* `imageAnalysisRun`, `conversationalRun`, `imageGenerationRun` model
  `chain.run` on the three Bedrock-backed chains, each of which may raise.
  In `multimodal_graph.py` the operation nodes reference the module-level
  names `image_analysis_chain`, `conversational_chain` and
  `image_generation_chain`, which are not imported into that module (only
  the `get_*` factory accessors are), so at runtime those references fail;
  the oracle's `Except.error` outcome covers that failure mode together
  with genuine provider errors, and `Except.ok` describes the behavior of
  the chain call the statement denotes.
* `uuid4` is the fresh identifier `str(uuid.uuid4())` produces.
* `startTime` / `now` stand for the two `time.time()` readings. -/
structure Gateway where
  getImageFromUrl : String → Option String
  processImageForBedrock : String → Except String String
  imageAnalysisRun : String → String → Except String AnalysisResult
  conversationalRun : String → String → Except String TextResult
  imageGenerationRun : String → String → String → String → Except String ImageGenResult
  uuid4 : String
  startTime : Nat
  now : Nat

/-- Collaborator invocations recorded while the workflow runs, in order. -/
inductive Event where
  | getImageFromUrl (url : String)
  | processImage (data : String)
  | analyzeImage (imageData prompt : String)
  | generateText (message sessionId : String)
  | generateImage (prompt genType style model : String)
deriving DecidableEq, Repr

/-- `MultimodalState` TypedDict from `multimodal_graph.py`. -/
structure MultimodalState where
  messages : List Msg
  question : String
  image_url : Option String
  image_data : Option String
  message_type : MessageType
  session_id : String
  response : String
  metadata : Metadata
  processing_steps : List String
  error : Option String
  requires_image_analysis : Bool
  requires_text_generation : Bool
  requires_image_generation : Bool
deriving DecidableEq, Repr

/-- Tail of `_process_input` after the image branch: the requirement flags
and the appended `HumanMessage`. -/
def finishInput (s : MultimodalState) : MultimodalState :=
  let s := { s with
    requires_image_analysis := pyTruthyOptStr s.image_data,
    requires_text_generation := true,
    requires_image_generation := pyStrIn "generate image" (pyLower s.question) }
  { s with messages := s.messages ++ [Msg.human s.question] }

/-- `_process_input`: appends the step name, generates a session id when the
current one is falsy, downloads and normalizes the image when `image_url`
is set (recording `error` on failure), then computes the requirement flags
and appends the user message. -/
def processInput (gw : Gateway) (s0 : MultimodalState) (log : List Event) :
    MultimodalState × List Event :=
  let s := { s0 with processing_steps := s0.processing_steps ++ ["input_processing"] }
  let s := { s with session_id := if s.session_id = "" then gw.uuid4 else s.session_id }
  match s.image_url with
  | some url =>
    let log := log ++ [Event.getImageFromUrl url]
    match gw.getImageFromUrl url with
    | some d =>
      if d ≠ "" then
        let log := log ++ [Event.processImage d]
        match gw.processImageForBedrock d with
        | .ok encoded =>
          (finishInput { s with image_data := some encoded, message_type := .multimodal }, log)
        | .error e => ({ s with error := some e }, log)
      else
        ({ s with error := some "Failed to process image from URL" }, log)
    | none => ({ s with error := some "Failed to process image from URL" }, log)
  | none => (finishInput s, log)

/-- The keyword list tested by `_route_request`. -/
def routeKeywords : List String := ["generate", "create", "draw", "make an image"]

/-- `any(keyword in question_lower for keyword in [...])`. -/
def keywordAny (question : String) : Bool :=
  routeKeywords.any fun k => pyStrIn k (pyLower question)

/-- `_route_request`: appends `"routing"`, then (unless `error` is truthy)
raises exactly one requirement flag following the keyword test. -/
def routeRequest (s : MultimodalState) : MultimodalState :=
  let s := { s with processing_steps := s.processing_steps ++ ["routing"] }
  if pyTruthyOptStr s.error then s
  else if keywordAny s.question then { s with requires_image_generation := true }
  else if pyTruthyOptStr s.image_data then { s with requires_image_analysis := true }
  else { s with requires_text_generation := true }

/-- The labels `_route_decision` can return. -/
inductive RouteTarget where
  | image_analysis
  | text_generation
  | image_generation
  | error
deriving DecidableEq, Repr

/-- `_route_decision`. -/
def routeDecision (s : MultimodalState) : RouteTarget :=
  if pyTruthyOptStr s.error then .error
  else if s.requires_image_generation then .image_generation
  else if s.requires_image_analysis then .image_analysis
  else .text_generation

/-- The f-string prompt `_analyze_image` builds for its second,
text-generation pass (whitespace as in the triple-quoted source literal). -/
def analysisCombinedPrompt (question analysis : String) : String :=
  "\n            User Question: " ++ question ++
  "\n            \n            Image Analysis: " ++ analysis ++
  "\n            \n            Please provide a comprehensive answer based on the user's question and the image analysis.\n            "

/-- `generate_text_tool`: builds `full_prompt` from prompt and context and
invokes the conversational chain with a fresh uuid session; the tool
itself traps failures (returning an `error`-only dict, modelled by
`Except.error`). -/
def generateTextTool (gw : Gateway) (prompt : String) (context : String)
    (log : List Event) : Except String TextResult × List Event :=
  let full_prompt := if context ≠ "" then context ++ "\n\n" ++ prompt else prompt
  let log := log ++ [Event.generateText full_prompt gw.uuid4]
  (gw.conversationalRun full_prompt gw.uuid4, log)

/-- `_analyze_image`: appends the step name; errors when `image_data` is
falsy; otherwise runs the analysis chain, records its outputs in
`metadata`, then invokes `generate_text_tool` on the combined prompt and
stores its `response`.  When the tool failed, the source's
`text_result["response"]` raises `KeyError('response')`, which the node's
`except` turns into `error = "'response'"`. -/
def analyzeImageNode (gw : Gateway) (s0 : MultimodalState) (log : List Event) :
    MultimodalState × List Event :=
  let s := { s0 with processing_steps := s0.processing_steps ++ ["image_analysis"] }
  if pyTruthyOptStr s.image_data then
    let imgData := s.image_data.getD ""
    let prompt := "Analyze this image in the context of this question: " ++ s.question
    let log := log ++ [Event.analyzeImage imgData prompt]
    match gw.imageAnalysisRun imgData prompt with
    | .error e => ({ s with error := some e }, log)
    | .ok result =>
      let md := dictSet (dictSet s.metadata "image_analysis" (.str result.analysis))
        "image_analysis_metadata" (.blob result.metadata)
      let s := { s with metadata := md }
      let (tres, log) := generateTextTool gw (analysisCombinedPrompt s.question result.analysis) "" log
      match tres with
      | .error _ => ({ s with error := some "'response'" }, log)
      | .ok t =>
        ({ s with response := t.response,
                  metadata := dictSet s.metadata "text_generation" (.blob t.metadata) }, log)
  else
    ({ s with error := some "No image data available for analysis" }, log)

/-- `_generate_text`: appends the step name, runs the conversational chain
on the raw question and session id, stores `response` and metadata;
failures become `error`. -/
def generateTextNode (gw : Gateway) (s0 : MultimodalState) (log : List Event) :
    MultimodalState × List Event :=
  let s := { s0 with processing_steps := s0.processing_steps ++ ["text_generation"] }
  let log := log ++ [Event.generateText s.question s.session_id]
  match gw.conversationalRun s.question s.session_id with
  | .error e => ({ s with error := some e }, log)
  | .ok t =>
    ({ s with response := t.response,
              metadata := dictSet s.metadata "text_generation" (.blob t.metadata) }, log)

/-- `_generate_image`: appends the step name, runs the image-generation
chain with the fixed arguments (`"realistic"`, `""`, `"titan_image"`),
stores metadata and images, and sets the fixed confirmation response;
failures become `error`. -/
def generateImageNode (gw : Gateway) (s0 : MultimodalState) (log : List Event) :
    MultimodalState × List Event :=
  let s := { s0 with processing_steps := s0.processing_steps ++ ["image_generation"] }
  let prompt := s.question
  let log := log ++ [Event.generateImage prompt "realistic" "" "titan_image"]
  match gw.imageGenerationRun prompt "realistic" "" "titan_image" with
  | .error e => ({ s with error := some e }, log)
  | .ok r =>
    let md := dictSet (dictSet s.metadata "image_generation" (.blob r.metadata))
      "generated_images" (.strList r.images)
    let s := { s with metadata := md }
    let resp := "I've generated an image based on your prompt: '" ++ prompt ++
      "'. The image has been created successfully."
    ({ s with response := resp }, log)

/-- `_synthesize_response`: appends the step name and the `AIMessage`, and
stamps session id, message type, step list and total elapsed time into
`metadata`. -/
def synthesizeResponse (gw : Gateway) (s0 : MultimodalState) : MultimodalState :=
  let s := { s0 with processing_steps := s0.processing_steps ++ ["response_synthesis"] }
  let s := { s with messages := s.messages ++ [Msg.ai s.response] }
  let elapsed := match dictGet s.metadata "start_time" with
    | some (.nat t) => gw.now - t
    | _ => 0
  let md := dictSet (dictSet (dictSet (dictSet s.metadata
    "session_id" (.str s.session_id))
    "message_type" (.mtype s.message_type))
    "processing_steps" (.strList s.processing_steps))
    "total_processing_time" (.nat elapsed)
  { s with metadata := md }

/-- `_handle_error`: appends the step name, overwrites `response` with the
apology embedding `state.get('error', 'Unknown error')` (the key is always
present, so a `None` value renders as `"None"`), and appends the
`AIMessage`. -/
def handleError (s0 : MultimodalState) : MultimodalState :=
  let s := { s0 with processing_steps := s0.processing_steps ++ ["error_handling"] }
  let errText := match s.error with
    | some m => m
    | none => "None"
  let resp := "I apologize, but I encountered an error while processing your request: " ++ errText
  let s := { s with response := resp }
  { s with messages := s.messages ++ [Msg.ai s.response] }

/-- One full run of the compiled graph, following the edges added in
`_create_graph`: `input_processing → route_request`, the conditional edges
out of `route_request`, and the three unconditional edges
`image_analysis/text_generation/image_generation → response_synthesis`;
`error_handling` is reachable only from the conditional routing. -/
def runGraph (gw : Gateway) (s0 : MultimodalState) : MultimodalState × List Event :=
  let (s1, log1) := processInput gw s0 []
  let s2 := routeRequest s1
  match routeDecision s2 with
  | .error => (handleError s2, log1)
  | .image_analysis =>
    let (s3, log3) := analyzeImageNode gw s2 log1
    (synthesizeResponse gw s3, log3)
  | .text_generation =>
    let (s3, log3) := generateTextNode gw s2 log1
    (synthesizeResponse gw s3, log3)
  | .image_generation =>
    let (s3, log3) := generateImageNode gw s2 log1
    (synthesizeResponse gw s3, log3)

/-- `session_id or str(uuid.uuid4())` from `process_message`'s initial
state: `None` and `""` are both falsy. -/
def resolveSessionId (gw : Gateway) (sid : Option String) : String :=
  match sid with
  | some s => if s = "" then gw.uuid4 else s
  | none => gw.uuid4

/-- The initial `MultimodalState` literal built by `process_message`. -/
def initialState (gw : Gateway) (question : String) (image_url image_data : Option String)
    (session_id : Option String) (message_type : MessageType) : MultimodalState :=
  { messages := []
    question := question
    image_url := image_url
    image_data := image_data
    message_type := message_type
    session_id := resolveSessionId gw session_id
    response := ""
    metadata := [("start_time", .nat gw.startTime)]
    processing_steps := []
    error := none
    requires_image_analysis := false
    requires_text_generation := false
    requires_image_generation := false }

/-- `process_message`: builds the initial state, runs the graph and returns
the response dictionary; `graphException` models `self.app.ainvoke`
raising, in which case the fallback dictionary from the `except` branch is
returned. -/
def processMessage (gw : Gateway) (question : String) (image_url image_data : Option String)
    (session_id : Option String) (message_type : MessageType)
    (graphException : Option String) : Envelope :=
  match graphException with
  | some e =>
    [("response", .str ("I apologize, but I encountered an error: " ++ e)),
     ("session_id", .str (resolveSessionId gw session_id)),
     ("message_type", .mtype message_type),
     ("metadata", .dict [("error", .str e)]),
     ("error", .str e)]
  | none =>
    let fs := (runGraph gw (initialState gw question image_url image_data session_id message_type)).1
    [("response", .str fs.response),
     ("session_id", .str fs.session_id),
     ("message_type", .mtype fs.message_type),
     ("metadata", .dict fs.metadata),
     ("error", match fs.error with | some m => .str m | none => .pyNone)]

/-- The `processing_steps` entry of the envelope's metadata dictionary. -/
def envSteps (env : Envelope) : List String :=
  match envLookup env "metadata" with
  | some (.dict m) =>
    match dictGet m "processing_steps" with
    | some (.strList l) => l
    | _ => []
  | _ => []

/-! ### ConversationalChain (`backend/chains/multimodal_chain.py`) -/

/-- The fields of `ConversationalChain` relevant to its history handling:
the in-process `conversation_history` list and `max_history_length`
(constructor default 10). -/
structure ConvChain where
  conversation_history : List Msg
  max_history_length : Nat
deriving DecidableEq, Repr

/-- A freshly constructed `ConversationalChain()`. -/
def convChainNew : ConvChain :=
  { conversation_history := [], max_history_length := 10 }

/-- Python's `l[-n:]`: the last `n` elements, except that `l[-0:]` is the
whole list. -/
def pyLastSlice (l : List Msg) (n : Nat) : List Msg :=
  if n = 0 then l else l.drop (l.length - n)

/-- The role-labelled rendering of one history message used to build the
conversation context. -/
def renderMsg : Msg → String
  | .human c => "User: " ++ c
  | .ai c => "Assistant: " ++ c

/-- `ConversationalChain._call`: appends the user message, trims the
history to the last `max_history_length` entries when it exceeds that
bound, builds the context from the last five messages, invokes the model,
and appends the assistant reply.  The model call is the oracle `llm`. -/
def ConvChain.callStep (llm : String → String) (c : ConvChain) (message : String) :
    ConvChain × String :=
  let hist := c.conversation_history ++ [Msg.human message]
  let hist := if hist.length > c.max_history_length then pyLastSlice hist c.max_history_length else hist
  let context := String.intercalate "\n" ((pyLastSlice hist 5).map renderMsg)
  let response := llm ("Conversation context:\n" ++ context ++ "\n\nPlease respond to the latest message.")
  ({ c with conversation_history := hist ++ [Msg.ai response] }, response)

/-- `ConversationalChain.clear_history`. -/
def ConvChain.clearHistory (c : ConvChain) : ConvChain :=
  { c with conversation_history := [] }

/-! ### ImageGenerationChain prompt expansion -/

/-- The `generation_prompts` dictionary of `ImageGenerationChain`. -/
def generation_prompts : List (String × String) :=
  [("enhance", "Create a detailed, high-quality version of: {prompt}"),
   ("artistic", "Create an artistic interpretation of: {prompt}"),
   ("realistic", "Create a photorealistic image of: {prompt}"),
   ("abstract", "Create an abstract representation of: {prompt}"),
   ("style_transfer", "Create an image in the style of {style}: {prompt}")]

def lookupStr (kvs : List (String × String)) (k : String) : Option String :=
  match kvs with
  | [] => none
  | (k', v') :: rest => if k' = k then some v' else lookupStr rest k

/-- Python `template.format(**kwargs)` for templates built from literal
text and simple `\x7bname\x7d` fields (the only shape the generation
templates use): a field whose name is missing from the keyword arguments
raises `KeyError(name)`, whose `str` is the quoted name.  The second
argument is `none` while scanning literal text and `some acc` while
accumulating a field name after an opening brace. -/
def pyFormatGo (kwargs : List (String × String)) :
    List Char → Option (List Char) → Except String (List Char)
  | [], none => .ok []
  | [], some _ => .error "Single '\x7b' encountered in format string"
  | c :: rest, none =>
    if c = '{' then pyFormatGo kwargs rest (some [])
    else
      match pyFormatGo kwargs rest none with
      | .error e => .error e
      | .ok tail => .ok (c :: tail)
  | c :: rest, some acc =>
    if c = '}' then
      match lookupStr kwargs (String.mk acc) with
      | none => .error ("'" ++ String.mk acc ++ "'")
      | some v =>
        match pyFormatGo kwargs rest none with
        | .error e => .error e
        | .ok tail => .ok (v.data ++ tail)
    else pyFormatGo kwargs rest (some (acc ++ [c]))

def pyFormat (kwargs : List (String × String)) (template : String) : Except String String :=
  match pyFormatGo kwargs template.data none with
  | .error e => .error e
  | .ok cs => .ok (String.mk cs)

/-- The prompt-enhancement logic at the top of `ImageGenerationChain._call`:
a known `generation_type` selects its template; `style_transfer` formats
with both `prompt` and `style` only when `style` is truthy, every other
known-type case formats with `prompt` alone; an unknown type falls back to
the unmodified prompt.  `Except.error` is a raised `KeyError`'s message. -/
def enhancedPrompt (prompt generation_type style : String) : Except String String :=
  match lookupStr generation_prompts generation_type with
  | some tmpl =>
    if generation_type = "style_transfer" ∧ style ≠ "" then
      pyFormat [("prompt", prompt), ("style", style)] tmpl
    else
      pyFormat [("prompt", prompt)] tmpl
  | none => .ok prompt

/-- The rest of `ImageGenerationChain._call`: on a successful expansion the
enhanced prompt is sent to `bedrock_service.generate_image`; any raise
(including the `KeyError` from formatting) propagates out of the chain
(`except ... raise`).  Returns (images, enhanced prompt) on success. -/
def imageGenChainCall (bedrockGenerate : String → String → Except String (List String))
    (prompt generation_type style model_name : String) :
    Except String (List String × String) :=
  match enhancedPrompt prompt generation_type style with
  | .error e => .error e
  | .ok ep =>
    match bedrockGenerate ep model_name with
    | .error e => .error e
    | .ok images => .ok (images, ep)

/-! ### The intent classifier as the specification words it (section 4.1) -/

inductive Intent where
  | generate_image
  | analyze_image
  | generate_text
deriving DecidableEq, Repr

/-- Intent classifier following the specification text: first-match-wins
over (1) generation keywords in the case-normalized question, (2) image
presence, (3) default text generation. -/
def specClassify (question : String) (hasImage : Bool) : Intent :=
  if keywordAny question then .generate_image
  else if hasImage then .analyze_image
  else .generate_text

/-- The graph node label each intent dispatches to. -/
def intentTarget : Intent → RouteTarget
  | .generate_image => .image_generation
  | .analyze_image => .image_analysis
  | .generate_text => .text_generation

/-! ### Concrete oracles used for counterexamples and witnesses -/

/-- An oracle whose model calls all fail (covering provider outages and the
unresolved module-level chain references in the graph module alike). -/
def gwDown : Gateway :=
  { getImageFromUrl := fun _ => none
    processImageForBedrock := fun d => .ok ("processed:" ++ d)
    imageAnalysisRun := fun _ _ => .error "boom"
    conversationalRun := fun _ _ => .error "model unavailable"
    imageGenerationRun := fun _ _ _ _ => .error "boom"
    uuid4 := "uuid-1"
    startTime := 2
    now := 7 }

/-- An oracle whose collaborator calls all succeed, with outputs chosen so
that a normalized image is distinguishable from a raw one. -/
def gwUp : Gateway :=
  { getImageFromUrl := fun _ => some "rawbytes"
    processImageForBedrock := fun d => .ok ("processed:" ++ d)
    imageAnalysisRun := fun _ _ => .ok { analysis := "a cat on a mat", metadata := "ameta" }
    conversationalRun := fun _ _ => .ok { response := "It shows a cat.", metadata := "tmeta" }
    imageGenerationRun := fun _ _ _ _ => .ok { images := ["img1"], metadata := "gmeta" }
    uuid4 := "fresh-uuid"
    startTime := 2
    now := 7 }

/-- An eleven-message history with pairwise distinct contents. -/
def histEleven : List Msg :=
  [Msg.human "m0", Msg.ai "m1", Msg.human "m2", Msg.ai "m3", Msg.human "m4",
   Msg.ai "m5", Msg.human "m6", Msg.ai "m7", Msg.human "m8", Msg.ai "m9",
   Msg.human "m10"]

/-! ## Helper lemmas -/

theorem listStartsWith_append_left (a b : List Char) :
    ∀ l, listStartsWith (a ++ b) l = true → listStartsWith a l = true := by
  induction a with
  | nil => intro l _; rfl
  | cons x xs ih =>
    intro l h
    cases l with
    | nil => simp [listStartsWith] at h
    | cons y ys =>
      simp only [List.cons_append, listStartsWith, Bool.and_eq_true] at h ⊢
      exact ⟨h.1, ih ys h.2⟩

theorem listContainsSub_append_left (a b : List Char) :
    ∀ l, listContainsSub (a ++ b) l = true → listContainsSub a l = true := by
  intro l
  induction l with
  | nil =>
    simp only [listContainsSub, List.isEmpty_eq_true, List.append_eq_nil]
    intro h
    simp [h.1]
  | cons c rest ih =>
    simp only [listContainsSub, Bool.or_eq_true]
    rintro (h | h)
    · exact Or.inl (listStartsWith_append_left a b _ h)
    · exact Or.inr (ih h)

theorem pyStrIn_append_left (n1 n2 h : String) :
    pyStrIn (n1 ++ n2) h = true → pyStrIn n1 h = true := by
  intro hc
  have : (n1 ++ n2).data = n1.data ++ n2.data := by
    cases n1; cases n2; rfl
  unfold pyStrIn at hc ⊢
  rw [this] at hc
  exact listContainsSub_append_left _ _ _ hc

theorem listStartsWith_self (a : List Char) : ∀ y, listStartsWith a (a ++ y) = true := by
  induction a with
  | nil => intro y; rfl
  | cons x xs ih =>
    intro y
    simp only [List.cons_append, listStartsWith, Bool.and_eq_true]
    exact ⟨by simp, ih y⟩

theorem listContainsSub_middle (a : List Char) :
    ∀ x y, listContainsSub a (x ++ a ++ y) = true := by
  intro x
  induction x with
  | nil =>
    intro y
    simp only [List.nil_append]
    cases a with
    | nil =>
      cases y with
      | nil => rfl
      | cons c cs => simp [listContainsSub, listStartsWith]
    | cons c cs =>
      simp only [listContainsSub, List.cons_append, Bool.or_eq_true]
      exact Or.inl (listStartsWith_self (c :: cs) y)
  | cons c cs ih =>
    intro y
    simp only [List.cons_append, listContainsSub, Bool.or_eq_true]
    exact Or.inr (ih y)

theorem pyStrIn_middle (p a sfx : String) : pyStrIn a (p ++ a ++ sfx) = true := by
  have : (p ++ a ++ sfx).data = p.data ++ a.data ++ sfx.data := by
    cases p; cases a; cases sfx; rfl
  unfold pyStrIn
  rw [this]
  exact listContainsSub_middle a.data p.data sfx.data

/-- If none of the routing keywords occurs in the lowered question, then in
particular `"generate image"` (checked separately by `_process_input`) does
not occur, since it extends the keyword `"generate"`. -/
theorem keywordAny_false_gi {q : String} (h : keywordAny q = false) :
    pyStrIn "generate image" (pyLower q) = false := by
  have hg : pyStrIn "generate" (pyLower q) = false := by
    unfold keywordAny routeKeywords at h
    simp only [List.any_cons, List.any_nil, Bool.or_eq_false_iff] at h
    exact h.1
  by_contra hne
  have : pyStrIn "generate image" (pyLower q) = true := by
    cases hgi : pyStrIn "generate image" (pyLower q) with
    | true => rfl
    | false => exact absurd hgi hne
  have : pyStrIn "generate" (pyLower q) = true := by
    have heq : ("generate" : String) ++ " image" = "generate image" := by decide
    exact pyStrIn_append_left "generate" " image" (pyLower q) (by rw [heq]; exact this)
  rw [this] at hg
  exact Bool.true_eq_false.mp hg

theorem dictGet_dictSet_same (d : Metadata) (k : String) (v : MetaVal) :
    dictGet (dictSet d k v) k = some v := by
  induction d with
  | nil => simp [dictSet, dictGet]
  | cons kv rest ih =>
    obtain ⟨k', v'⟩ := kv
    by_cases hk : k' = k
    · simp [dictSet, dictGet, hk]
    · simp [dictSet, dictGet, hk, ih]

theorem dictGet_dictSet_other (d : Metadata) (k k' : String) (v : MetaVal)
    (h : k' ≠ k) : dictGet (dictSet d k v) k' = dictGet d k' := by
  have hkk : k ≠ k' := Ne.symm h
  induction d with
  | nil => simp [dictSet, dictGet, hkk]
  | cons kv rest ih =>
    obtain ⟨k₀, v₀⟩ := kv
    by_cases hk : k₀ = k
    · subst hk
      simp [dictSet, dictGet, hkk]
    · by_cases hk' : k₀ = k'
      · simp [dictSet, dictGet, hk, hk', h]
      · simp [dictSet, dictGet, hk, hk', ih]

/-! ### Field-preservation lemmas for the graph nodes -/

theorem generateTextNode_fields (gw : Gateway) (s : MultimodalState) (log : List Event) :
    (generateTextNode gw s log).1.session_id = s.session_id ∧
    (generateTextNode gw s log).1.message_type = s.message_type ∧
    (generateTextNode gw s log).1.question = s.question ∧
    (generateTextNode gw s log).1.image_data = s.image_data ∧
    (generateTextNode gw s log).1.processing_steps = s.processing_steps ++ ["text_generation"] := by
  unfold generateTextNode
  dsimp only
  cases h : gw.conversationalRun s.question s.session_id <;> simp [h]

theorem analyzeImageNode_fields (gw : Gateway) (s : MultimodalState) (log : List Event) :
    (analyzeImageNode gw s log).1.session_id = s.session_id ∧
    (analyzeImageNode gw s log).1.message_type = s.message_type ∧
    (analyzeImageNode gw s log).1.question = s.question ∧
    (analyzeImageNode gw s log).1.image_data = s.image_data ∧
    (analyzeImageNode gw s log).1.processing_steps = s.processing_steps ++ ["image_analysis"] := by
  unfold analyzeImageNode generateTextTool
  by_cases hi : pyTruthyOptStr s.image_data = true
  · simp only [hi, if_true]
    cases h : gw.imageAnalysisRun (s.image_data.getD "") ("Analyze this image in the context of this question: " ++ s.question) with
    | error e => simp [h]
    | ok result =>
      simp only [h]
      cases h2 : gw.conversationalRun (analysisCombinedPrompt s.question result.analysis) gw.uuid4 <;> simp [h2]
  · simp only [Bool.not_eq_true] at hi
    simp [hi]

theorem generateImageNode_fields (gw : Gateway) (s : MultimodalState) (log : List Event) :
    (generateImageNode gw s log).1.session_id = s.session_id ∧
    (generateImageNode gw s log).1.message_type = s.message_type ∧
    (generateImageNode gw s log).1.question = s.question ∧
    (generateImageNode gw s log).1.image_data = s.image_data ∧
    (generateImageNode gw s log).1.processing_steps = s.processing_steps ++ ["image_generation"] := by
  unfold generateImageNode
  dsimp only
  cases h : gw.imageGenerationRun s.question "realistic" "" "titan_image" <;> simp [h]

theorem synthesizeResponse_fields (gw : Gateway) (s : MultimodalState) :
    (synthesizeResponse gw s).session_id = s.session_id ∧
    (synthesizeResponse gw s).message_type = s.message_type ∧
    (synthesizeResponse gw s).response = s.response ∧
    (synthesizeResponse gw s).error = s.error ∧
    (synthesizeResponse gw s).processing_steps = s.processing_steps ++ ["response_synthesis"] := by
  unfold synthesizeResponse
  dsimp only
  exact ⟨rfl, rfl, rfl, rfl, rfl⟩

theorem handleError_fields (s : MultimodalState) :
    (handleError s).session_id = s.session_id ∧
    (handleError s).message_type = s.message_type ∧
    (handleError s).error = s.error ∧
    (handleError s).processing_steps = s.processing_steps ++ ["error_handling"] := by
  unfold handleError
  dsimp only
  exact ⟨rfl, rfl, rfl, rfl⟩

theorem processInput_fields (gw : Gateway) (s0 : MultimodalState) (log : List Event) :
    ((processInput gw s0 log).1.session_id = if s0.session_id = "" then gw.uuid4 else s0.session_id) ∧
    ((processInput gw s0 log).1.processing_steps = s0.processing_steps ++ ["input_processing"]) ∧
    ((processInput gw s0 log).1.question = s0.question) ∧
    ((processInput gw s0 log).1.response = s0.response) := by
  unfold processInput finishInput
  dsimp only
  cases h : s0.image_url with
  | none => exact ⟨rfl, rfl, rfl, rfl⟩
  | some url =>
    dsimp only
    cases h2 : gw.getImageFromUrl url with
    | none => exact ⟨rfl, rfl, rfl, rfl⟩
    | some d =>
      dsimp only
      by_cases hd : d ≠ ""
      · rw [if_pos hd]
        cases h3 : gw.processImageForBedrock d <;> exact ⟨rfl, rfl, rfl, rfl⟩
      · rw [if_neg hd]
        exact ⟨rfl, rfl, rfl, rfl⟩

theorem routeRequest_fields (s : MultimodalState) :
    (routeRequest s).session_id = s.session_id ∧
    (routeRequest s).message_type = s.message_type ∧
    (routeRequest s).question = s.question ∧
    (routeRequest s).image_data = s.image_data ∧
    (routeRequest s).response = s.response ∧
    (routeRequest s).error = s.error ∧
    (routeRequest s).metadata = s.metadata ∧
    (routeRequest s).processing_steps = s.processing_steps ++ ["routing"] := by
  unfold routeRequest
  dsimp only
  split_ifs <;> exact ⟨rfl, rfl, rfl, rfl, rfl, rfl, rfl, rfl⟩

theorem handleError_response (s : MultimodalState) :
    (handleError s).response =
      "I apologize, but I encountered an error while processing your request: " ++
        (match s.error with | some m => m | none => "None") := rfl

theorem append_ne_empty_left (p t : String) (h : p.data ≠ []) : p ++ t ≠ "" := by
  intro he
  apply h
  have hd : (p ++ t).data = p.data ++ t.data := by cases p; cases t; rfl
  have hz : (p ++ t).data = ("" : String).data := by rw [he]
  rw [hd] at hz
  exact (List.append_eq_nil.mp hz).1

theorem getLast?_append_single (l : List String) (a : String) :
    (l ++ [a]).getLast? = some a := by
  simp



theorem runGraph_master (gw : Gateway) (s0 : MultimodalState) :
    ((runGraph gw s0).1.session_id = if s0.session_id = "" then gw.uuid4 else s0.session_id) ∧
    ((runGraph gw s0).1.message_type = (processInput gw s0 []).1.message_type) ∧
    (∃ rest, (runGraph gw s0).1.processing_steps =
      s0.processing_steps ++ ("input_processing" :: "routing" :: rest)) ∧
    ((runGraph gw s0).1.processing_steps.getLast? = some "error_handling" →
      (runGraph gw s0).1.response ≠ "") := by
  obtain ⟨hse, hst, hq, hre⟩ := processInput_fields gw s0 []
  unfold runGraph
  rcases hPI : processInput gw s0 [] with ⟨s1, l1⟩
  rw [hPI] at hse hst hq hre
  dsimp only at hse hst hq hre ⊢
  obtain ⟨r1, r2, r3, r4, r5, r6, r7, r8⟩ := routeRequest_fields s1
  rcases hrd : routeDecision (routeRequest s1) with _ | _ | _ | _
  case error =>
    dsimp only
    obtain ⟨e1, e2, e3, e4⟩ := handleError_fields (routeRequest s1)
    refine ⟨?_, ?_, ?_, ?_⟩
    · rw [e1, r1, hse]
    · rw [e2, r2]
    · exact ⟨["error_handling"], by rw [e4, r8, hst]; simp⟩
    · intro _
      rw [handleError_response]
      exact append_ne_empty_left _ _ (by decide)
  case image_analysis =>
    dsimp only
    rcases hN : analyzeImageNode gw (routeRequest s1) l1 with ⟨s3, l3⟩
    obtain ⟨n1, n2, n3, n4, n5⟩ := analyzeImageNode_fields gw (routeRequest s1) l1
    rw [hN] at n1 n2 n3 n4 n5
    dsimp only at n1 n2 n3 n4 n5 ⊢
    obtain ⟨y1, y2, y3, y4, y5⟩ := synthesizeResponse_fields gw s3
    refine ⟨?_, ?_, ?_, ?_⟩
    · rw [y1, n1, r1, hse]
    · rw [y2, n2, r2]
    · exact ⟨["image_analysis", "response_synthesis"], by rw [y5, n5, r8, hst]; simp⟩
    · intro hlast
      rw [y5] at hlast
      rw [getLast?_append_single] at hlast
      simp at hlast
  case text_generation =>
    dsimp only
    rcases hN : generateTextNode gw (routeRequest s1) l1 with ⟨s3, l3⟩
    obtain ⟨n1, n2, n3, n4, n5⟩ := generateTextNode_fields gw (routeRequest s1) l1
    rw [hN] at n1 n2 n3 n4 n5
    dsimp only at n1 n2 n3 n4 n5 ⊢
    obtain ⟨y1, y2, y3, y4, y5⟩ := synthesizeResponse_fields gw s3
    refine ⟨?_, ?_, ?_, ?_⟩
    · rw [y1, n1, r1, hse]
    · rw [y2, n2, r2]
    · exact ⟨["text_generation", "response_synthesis"], by rw [y5, n5, r8, hst]; simp⟩
    · intro hlast
      rw [y5] at hlast
      rw [getLast?_append_single] at hlast
      simp at hlast
  case image_generation =>
    dsimp only
    rcases hN : generateImageNode gw (routeRequest s1) l1 with ⟨s3, l3⟩
    obtain ⟨n1, n2, n3, n4, n5⟩ := generateImageNode_fields gw (routeRequest s1) l1
    rw [hN] at n1 n2 n3 n4 n5
    dsimp only at n1 n2 n3 n4 n5 ⊢
    obtain ⟨y1, y2, y3, y4, y5⟩ := synthesizeResponse_fields gw s3
    refine ⟨?_, ?_, ?_, ?_⟩
    · rw [y1, n1, r1, hse]
    · rw [y2, n2, r2]
    · exact ⟨["image_generation", "response_synthesis"], by rw [y5, n5, r8, hst]; simp⟩
    · intro hlast
      rw [y5] at hlast
      rw [getLast?_append_single] at hlast
      simp at hlast

theorem pyTruthyOptStr_none : pyTruthyOptStr none = false := rfl

/-- Closed form of `_process_input` on an initial state without an
`image_url`. -/
theorem processInput_no_url (gw : Gateway) (q : String) (idata : Option String)
    (sid : Option String) (mt : MessageType) :
    processInput gw (initialState gw q none idata sid mt) [] =
    ({ messages := [Msg.human q]
       question := q
       image_url := none
       image_data := idata
       message_type := mt
       session_id := if resolveSessionId gw sid = "" then gw.uuid4 else resolveSessionId gw sid
       response := ""
       metadata := [("start_time", .nat gw.startTime)]
       processing_steps := ["input_processing"]
       error := none
       requires_image_analysis := pyTruthyOptStr idata
       requires_text_generation := true
       requires_image_generation := pyStrIn "generate image" (pyLower q) }, []) := rfl

/-- The route decision reached from a fresh no-`image_url` request equals
the spec's first-match-wins classification. -/
theorem route_after_no_url (gw : Gateway) (q : String) (idata : Option String)
    (sid : Option String) (mt : MessageType) :
    routeDecision (routeRequest (processInput gw (initialState gw q none idata sid mt) []).1)
      = intentTarget (specClassify q (pyTruthyOptStr idata)) := by
  rw [processInput_no_url]
  unfold routeRequest routeDecision specClassify intentTarget
  cases hkw : keywordAny q with
  | true => simp [hkw, pyTruthyOptStr_none]
  | false =>
    have hgi := keywordAny_false_gi hkw
    cases hid : pyTruthyOptStr idata with
    | true => simp [hkw, hid, hgi, pyTruthyOptStr_none]
    | false => simp [hkw, hid, hgi, pyTruthyOptStr_none]

/-! ### Further helper lemmas for the image-analysis path -/

theorem strData_append (x y : String) : (x ++ y).data = x.data ++ y.data := by
  cases x; cases y; rfl

theorem listContainsSub_middle_assoc (a x y : List Char) :
    listContainsSub a (x ++ (a ++ y)) = true := by
  have := listContainsSub_middle a x y
  simpa [List.append_assoc] using this

theorem combinedPrompt_contains_question (q a : String) :
    pyStrIn q (analysisCombinedPrompt q a) = true := by
  unfold analysisCombinedPrompt pyStrIn
  simp only [strData_append, List.append_assoc]
  exact listContainsSub_middle_assoc q.data _ _

theorem combinedPrompt_contains_analysis (q a : String) :
    pyStrIn a (analysisCombinedPrompt q a) = true := by
  unfold analysisCombinedPrompt pyStrIn
  simp only [strData_append, List.append_assoc]
  have h := listContainsSub_middle a.data
    ("\n            User Question: ".data ++ (q.data ++ "\n            \n            Image Analysis: ".data))
    "\n            \n            Please provide a comprehensive answer based on the user's question and the image analysis.\n            ".data
  simpa [List.append_assoc] using h

/-- Closed-form behavior of the whole graph on a fresh inline-image request
whose question has no generation keywords and whose analysis call
succeeds: the run dispatches to IMAGE_ANALYSIS, records the analyze event
and then a text-generation event on the combined prompt, finishes through
RESPONSE_SYNTHESIS (stamping the four-step trace), leaves the inline image
data un-normalized, and stores the text result as `response` when the
second call succeeds. -/
theorem runGraph_analysis_path (gw : Gateway) (q idata : String) (sid : Option String)
    (mt : MessageType) (ares : AnalysisResult)
    (hkw : keywordAny q = false) (himg : idata ≠ "")
    (hana : gw.imageAnalysisRun idata
      ("Analyze this image in the context of this question: " ++ q) = .ok ares) :
    ((runGraph gw (initialState gw q none (some idata) sid mt)).2 =
      [Event.analyzeImage idata ("Analyze this image in the context of this question: " ++ q),
       Event.generateText (analysisCombinedPrompt q ares.analysis) gw.uuid4]) ∧
    ((runGraph gw (initialState gw q none (some idata) sid mt)).1.processing_steps =
      ["input_processing", "routing", "image_analysis", "response_synthesis"]) ∧
    ((runGraph gw (initialState gw q none (some idata) sid mt)).1.image_data = some idata) ∧
    ((runGraph gw (initialState gw q none (some idata) sid mt)).1.session_id =
      if resolveSessionId gw sid = "" then gw.uuid4 else resolveSessionId gw sid) ∧
    (dictGet (runGraph gw (initialState gw q none (some idata) sid mt)).1.metadata "processing_steps"
      = some (.strList ["input_processing", "routing", "image_analysis", "response_synthesis"])) ∧
    (∀ t, gw.conversationalRun (analysisCombinedPrompt q ares.analysis) gw.uuid4 = .ok t →
      (runGraph gw (initialState gw q none (some idata) sid mt)).1.response = t.response) := by
  have htr : pyTruthyOptStr (some idata) = true := by simp [pyTruthyOptStr, himg]
  have hgi := keywordAny_false_gi hkw
  unfold runGraph
  rw [processInput_no_url]
  dsimp only
  unfold routeRequest routeDecision
  dsimp only
  rw [hkw]
  simp only [pyTruthyOptStr_none, htr, Bool.false_eq_true, if_false, if_true, hgi]
  unfold analyzeImageNode generateTextTool
  dsimp only
  simp only [htr, if_true, Option.getD_some]
  rw [hana]
  dsimp only
  simp only [ne_eq, not_true_eq_false, if_false, reduceIte]
  cases hc : gw.conversationalRun (analysisCombinedPrompt q ares.analysis) gw.uuid4 with
  | error e =>
    unfold synthesizeResponse
    dsimp only
    refine ⟨rfl, rfl, rfl, rfl, ?_, ?_⟩
    · rw [dictGet_dictSet_other _ _ _ _ (by decide), dictGet_dictSet_same]
      rfl
    · intro t ht
      simp at ht
  | ok t =>
    unfold synthesizeResponse
    dsimp only
    refine ⟨rfl, rfl, rfl, rfl, ?_, ?_⟩
    · rw [dictGet_dictSet_other _ _ _ _ (by decide), dictGet_dictSet_same]
      rfl
    · intro t' ht'
      cases ht'
      rfl

/-- Message type computed by `_process_input` when the url download and
the normalization both succeed. -/
theorem processInput_url_ok_mtype (gw : Gateway) (q u raw norm : String) (sid : Option String)
    (mt : MessageType)
    (hdl : gw.getImageFromUrl u = some raw) (hraw : raw ≠ "")
    (hnorm : gw.processImageForBedrock raw = .ok norm) :
    (processInput gw (initialState gw q (some u) none sid mt) []).1.message_type
      = .multimodal := by
  unfold processInput finishInput initialState
  dsimp only
  rw [hdl]
  dsimp only
  rw [if_pos hraw, hnorm]

/-! ## Claim theorems -/

/-- C1 counterexample: with a failing text-generation collaborator, the
operation node sets `error`, yet the workflow transitions to
RESPONSE_SYNTHESIS — not ERROR_HANDLING — because the graph wires all
three operation nodes to `response_synthesis` unconditionally.  The
envelope carries the error, but `response` is the empty string rather than
an apology, and the stamped step trace ends with "response_synthesis". -/
theorem claim_C1_counterexample :
    envLookup (processMessage gwDown "hello there" none none (some "sess-1") .text none) "error"
      = some (.str "model unavailable") ∧
    envLookup (processMessage gwDown "hello there" none none (some "sess-1") .text none) "response"
      = some (.str "") ∧
    (envSteps (processMessage gwDown "hello there" none none (some "sess-1") .text none)).getLast?
      = some "response_synthesis" ∧
    (envSteps (processMessage gwDown "hello there" none none (some "sess-1") .text none)).getLast?
      ≠ some "error_handling" := by decide

/-- C1 amended: when any of the three operation steps (TEXT_GENERATION,
IMAGE_ANALYSIS, IMAGE_GENERATION) catches a collaborator failure with
message `m`, the workflow continues into RESPONSE_SYNTHESIS — not
ERROR_HANDLING, which is reachable only from routing; the terminal
envelope has `error = m`, `response` equal to the (empty) previously-set
string, and a step trace ending in "response_synthesis".  The first
conjunct covers the text route (keyword-free, image-free request with a
failing conversational chain), the second the image-analysis route
(keyword-free request with truthy inline image data and a failing
analysis chain), the third the image-generation route (a generation
keyword in the question and a failing image-generation chain). -/
theorem claim_C1_amended (gw : Gateway) :
    (∀ (q : String) (sid : Option String) (mt : MessageType) (m : String),
      keywordAny q = false →
      (∀ sess, gw.conversationalRun q sess = .error m) →
      envLookup (processMessage gw q none none sid mt none) "error" = some (.str m) ∧
      envLookup (processMessage gw q none none sid mt none) "response" = some (.str "") ∧
      (envSteps (processMessage gw q none none sid mt none)).getLast?
        = some "response_synthesis") ∧
    (∀ (q idata : String) (sid : Option String) (mt : MessageType) (m : String),
      keywordAny q = false → idata ≠ "" →
      gw.imageAnalysisRun idata
        ("Analyze this image in the context of this question: " ++ q) = .error m →
      envLookup (processMessage gw q none (some idata) sid mt none) "error" = some (.str m) ∧
      envLookup (processMessage gw q none (some idata) sid mt none) "response" = some (.str "") ∧
      (envSteps (processMessage gw q none (some idata) sid mt none)).getLast?
        = some "response_synthesis") ∧
    (∀ (q : String) (sid : Option String) (mt : MessageType) (m : String),
      keywordAny q = true →
      gw.imageGenerationRun q "realistic" "" "titan_image" = .error m →
      envLookup (processMessage gw q none none sid mt none) "error" = some (.str m) ∧
      envLookup (processMessage gw q none none sid mt none) "response" = some (.str "") ∧
      (envSteps (processMessage gw q none none sid mt none)).getLast?
        = some "response_synthesis") := by
  refine ⟨?_, ?_, ?_⟩
  · intro q sid mt m hkw hfail
    have hgi := keywordAny_false_gi hkw
    unfold processMessage
    dsimp only
    unfold runGraph
    rw [processInput_no_url]
    dsimp only
    unfold routeRequest routeDecision
    dsimp only
    rw [hkw]
    simp only [pyTruthyOptStr_none, Bool.false_eq_true, if_false, hgi]
    unfold generateTextNode
    dsimp only
    rw [hfail]
    unfold synthesizeResponse
    dsimp only
    simp [envLookup, envSteps, dictGet, dictSet]
  · intro q idata sid mt m hkw himg hfail
    have htr : pyTruthyOptStr (some idata) = true := by simp [pyTruthyOptStr, himg]
    have hgi := keywordAny_false_gi hkw
    unfold processMessage
    dsimp only
    unfold runGraph
    rw [processInput_no_url]
    dsimp only
    unfold routeRequest routeDecision
    dsimp only
    rw [hkw]
    simp only [pyTruthyOptStr_none, htr, Bool.false_eq_true, if_false, if_true, hgi]
    unfold analyzeImageNode
    dsimp only
    simp only [htr, if_true, Option.getD_some]
    rw [hfail]
    unfold synthesizeResponse
    dsimp only
    simp [envLookup, envSteps, dictGet, dictSet]
  · intro q sid mt m hkw hfail
    unfold processMessage
    dsimp only
    unfold runGraph
    rw [processInput_no_url]
    dsimp only
    unfold routeRequest routeDecision
    dsimp only
    rw [hkw]
    simp only [pyTruthyOptStr_none, Bool.false_eq_true, if_false, if_true]
    unfold generateImageNode
    dsimp only
    rw [hfail]
    unfold synthesizeResponse
    dsimp only
    simp [envLookup, envSteps, dictGet, dictSet]

/-- Witness for the amended C1: all three failing operation routes
exercised at a concrete failing oracle (text route on "hello there",
analysis route on the same question with inline image data, generation
route on "draw a cat"). -/
theorem claim_C1_amended_witness :
    (envLookup (processMessage gwDown "hello there" none none (some "sess-9") .text none) "error"
      = some (.str "model unavailable") ∧
     envLookup (processMessage gwDown "hello there" none none (some "sess-9") .text none) "response"
      = some (.str "") ∧
     (envSteps (processMessage gwDown "hello there" none none (some "sess-9") .text none)).getLast?
      = some "response_synthesis") ∧
    (envLookup (processMessage gwDown "hello there" none (some "img") (some "sess-9") .text none) "error"
      = some (.str "boom") ∧
     envLookup (processMessage gwDown "hello there" none (some "img") (some "sess-9") .text none) "response"
      = some (.str "") ∧
     (envSteps (processMessage gwDown "hello there" none (some "img") (some "sess-9") .text none)).getLast?
      = some "response_synthesis") ∧
    (envLookup (processMessage gwDown "draw a cat" none none (some "sess-9") .text none) "error"
      = some (.str "boom") ∧
     envLookup (processMessage gwDown "draw a cat" none none (some "sess-9") .text none) "response"
      = some (.str "") ∧
     (envSteps (processMessage gwDown "draw a cat" none none (some "sess-9") .text none)).getLast?
      = some "response_synthesis") :=
  ⟨(claim_C1_amended gwDown).1 "hello there" (some "sess-9") .text "model unavailable"
      (by decide) (fun _ => rfl),
   (claim_C1_amended gwDown).2.1 "hello there" "img" (some "sess-9") .text "boom"
      (by decide) (by decide) rfl,
   (claim_C1_amended gwDown).2.2 "draw a cat" (some "sess-9") .text "boom"
      (by decide) rfl⟩

/-- C2 counterexample: a failing text-generation collaborator yields a
terminal envelope whose `response` is the empty string (the claim demands
a non-empty `response` on every path). -/
theorem claim_C2_counterexample :
    envLookup (processMessage gwDown "tell me a joke" none none (some "sess-2") .text none) "response"
      = some (.str "") ∧
    envLookup (processMessage gwDown "tell me a joke" none none (some "sess-2") .text none) "error"
      = some (.str "model unavailable") := by decide

/-- C2 amended: the terminal session id is never empty (given uuid4 is
non-empty), and `response` is guaranteed non-empty on the ERROR_HANDLING
path and on the top-level exception path — but not after an operation-step
failure, where it stays the initial empty string. -/
theorem claim_C2_amended (gw : Gateway) (q : String) (iu idata sid : Option String)
    (mt : MessageType) (huuid : gw.uuid4 ≠ "") :
    ((runGraph gw (initialState gw q iu idata sid mt)).1.session_id ≠ "") ∧
    ((runGraph gw (initialState gw q iu idata sid mt)).1.processing_steps.getLast?
        = some "error_handling" →
      (runGraph gw (initialState gw q iu idata sid mt)).1.response ≠ "") ∧
    (∀ e, envLookup (processMessage gw q iu idata sid mt (some e)) "response"
      = some (.str ("I apologize, but I encountered an error: " ++ e))) := by
  obtain ⟨hs, -, -, hlast⟩ := runGraph_master gw (initialState gw q iu idata sid mt)
  refine ⟨?_, hlast, ?_⟩
  · rw [hs]
    rw [show (initialState gw q iu idata sid mt).session_id = resolveSessionId gw sid from rfl]
    unfold resolveSessionId
    cases sid with
    | none => simp [huuid]
    | some s =>
      by_cases hse : s = ""
      · simp [hse, huuid]
      · simp [hse]
  · intro e
    unfold processMessage
    dsimp only
    simp [envLookup]

/-- Witness for the amended C2: a failed url download reaches
ERROR_HANDLING and produces a non-empty apology; the exception path also
produces the apology; the session id is non-empty. -/
theorem claim_C2_amended_witness :
    ((runGraph gwDown (initialState gwDown "hi" (some "http://x/y.jpg") none (some "s") .text)).1.session_id ≠ "") ∧
    ((runGraph gwDown (initialState gwDown "hi" (some "http://x/y.jpg") none (some "s") .text)).1.response ≠ "") ∧
    (envLookup (processMessage gwDown "hi" (some "http://x/y.jpg") none (some "s") .text (some "crash")) "response"
      = some (.str ("I apologize, but I encountered an error: " ++ "crash"))) :=
  ⟨(claim_C2_amended gwDown "hi" (some "http://x/y.jpg") none (some "s") .text (by decide)).1,
   (claim_C2_amended gwDown "hi" (some "http://x/y.jpg") none (some "s") .text (by decide)).2.1 (by decide),
   (claim_C2_amended gwDown "hi" (some "http://x/y.jpg") none (some "s") .text (by decide)).2.2 "crash"⟩

/-- C3: the intent classification realized by `_process_input`,
`_route_request` and `_route_decision` together is a total function of the
question and of image presence (Python truthiness of `image_data`),
evaluated in the spec's precedence order: generation keywords first (even
when an image is present), then image presence, then text generation. -/
theorem claim_C3_classifier_precedence (gw : Gateway) (q : String) (idata : Option String)
    (sid : Option String) (mt : MessageType) :
    routeDecision (routeRequest (processInput gw (initialState gw q none idata sid mt) []).1)
      = intentTarget (specClassify q (pyTruthyOptStr idata)) :=
  route_after_no_url gw q idata sid mt

/-- C4 (code bug): for prompt "a castle", generationType "style_transfer"
and empty style, the expansion does not fall back to the plain prompt:
the `style_transfer` template (which still contains a style field) is
formatted with only the prompt keyword, raising `KeyError('style')`, which
the chain re-raises. -/
theorem claim_C4_styleTransfer_empty_style_raises :
    enhancedPrompt "a castle" "style_transfer" "" = .error "'style'" ∧
    imageGenChainCall (fun p _ => .ok [p]) "a castle" "style_transfer" "" "titan_image"
      = .error "'style'" := ⟨rfl, rfl⟩

/-- C5: on a request routed to IMAGE_ANALYSIS whose analyze call succeeds,
the engine performs a second text-generation call whose prompt contains
both the original question and the analysis text, and stores that call's
output as the conversational `response` when it succeeds. -/
theorem claim_C5_analysis_chains_textgen (gw : Gateway) (q idata : String) (sid : Option String)
    (mt : MessageType) (ares : AnalysisResult)
    (hkw : keywordAny q = false) (himg : idata ≠ "")
    (hana : gw.imageAnalysisRun idata
      ("Analyze this image in the context of this question: " ++ q) = .ok ares) :
    (Event.generateText (analysisCombinedPrompt q ares.analysis) gw.uuid4 ∈
      (runGraph gw (initialState gw q none (some idata) sid mt)).2) ∧
    (∀ t, gw.conversationalRun (analysisCombinedPrompt q ares.analysis) gw.uuid4 = .ok t →
      (runGraph gw (initialState gw q none (some idata) sid mt)).1.response = t.response) ∧
    pyStrIn q (analysisCombinedPrompt q ares.analysis) = true ∧
    pyStrIn ares.analysis (analysisCombinedPrompt q ares.analysis) = true := by
  obtain ⟨hev, -, -, -, -, hresp⟩ := runGraph_analysis_path gw q idata sid mt ares hkw himg hana
  refine ⟨?_, hresp, combinedPrompt_contains_question q ares.analysis,
    combinedPrompt_contains_analysis q ares.analysis⟩
  rw [hev]
  simp

/-- Witness for C5 at a concrete all-success oracle. -/
theorem claim_C5_witness :
    (Event.generateText (analysisCombinedPrompt "What is in this picture?" "a cat on a mat") gwUp.uuid4 ∈
      (runGraph gwUp (initialState gwUp "What is in this picture?" none (some "b64jpeg") none .text)).2) ∧
    ((runGraph gwUp (initialState gwUp "What is in this picture?" none (some "b64jpeg") none .text)).1.response
      = "It shows a cat.") ∧
    pyStrIn "What is in this picture?" (analysisCombinedPrompt "What is in this picture?" "a cat on a mat") = true ∧
    pyStrIn "a cat on a mat" (analysisCombinedPrompt "What is in this picture?" "a cat on a mat") = true := by
  have h := claim_C5_analysis_chains_textgen gwUp "What is in this picture?" "b64jpeg" none .text
    { analysis := "a cat on a mat", metadata := "ameta" } (by decide) (by decide) rfl
  exact ⟨h.1, h.2.1 { response := "It shows a cat.", metadata := "tmeta" } rfl, h.2.2.1, h.2.2.2⟩

/-- C6 counterexample: on the end-to-end scenario with inline imageData,
the engine never invokes the image normalizer (no normalization event is
recorded and `image_data` stays the raw inline value), contradicting the
claim's "normalizes the image"; the rest of the scenario (four-step trace)
does hold. -/
theorem claim_C6_counterexample :
    ((runGraph gwUp (initialState gwUp "What is in this picture?" none (some "b64jpegdata") none .text)).2.all
      (fun e => match e with | .processImage _ => false | _ => true) = true) ∧
    ((runGraph gwUp (initialState gwUp "What is in this picture?" none (some "b64jpegdata") none .text)).1.image_data
      = some "b64jpegdata") ∧
    (envSteps (processMessage gwUp "What is in this picture?" none (some "b64jpegdata") none .text none)
      = ["input_processing", "routing", "image_analysis", "response_synthesis"]) := by decide

/-- C6 amended: for the scenario request (inline image data, null session),
the engine assigns the fresh uuid as session id, classifies
ANALYZE_IMAGE, stamps the step trace
["input_processing","routing","image_analysis","response_synthesis"], and
returns the chained text-generation output as `response`; the inline image
is passed through un-normalized (normalization only happens for
`image_url` inputs). -/
theorem claim_C6_amended (gw : Gateway) (raw : String) (ares : AnalysisResult) (tres : TextResult)
    (hraw : raw ≠ "")
    (hana : ∀ d p, gw.imageAnalysisRun d p = .ok ares)
    (hconv : ∀ m s, gw.conversationalRun m s = .ok tres) :
    ((runGraph gw (initialState gw "What is in this picture?" none (some raw) none .text)).1.session_id
      = gw.uuid4) ∧
    (dictGet (runGraph gw (initialState gw "What is in this picture?" none (some raw) none .text)).1.metadata
      "processing_steps" = some (.strList ["input_processing", "routing", "image_analysis", "response_synthesis"])) ∧
    ((runGraph gw (initialState gw "What is in this picture?" none (some raw) none .text)).1.response
      = tres.response) ∧
    ((runGraph gw (initialState gw "What is in this picture?" none (some raw) none .text)).1.image_data
      = some raw) := by
  obtain ⟨-, -, himg, hsess, hmd, hresp⟩ := runGraph_analysis_path gw "What is in this picture?" raw none .text ares
    (by decide) hraw (hana _ _)
  refine ⟨?_, hmd, hresp tres (hconv _ _), himg⟩
  rw [hsess]
  simp [resolveSessionId]

/-- Witness for the amended C6 at a concrete all-success oracle. -/
theorem claim_C6_amended_witness :
    ((runGraph gwUp (initialState gwUp "What is in this picture?" none (some "b64jpeg") none .text)).1.session_id
      = gwUp.uuid4) ∧
    (dictGet (runGraph gwUp (initialState gwUp "What is in this picture?" none (some "b64jpeg") none .text)).1.metadata
      "processing_steps" = some (.strList ["input_processing", "routing", "image_analysis", "response_synthesis"])) ∧
    ((runGraph gwUp (initialState gwUp "What is in this picture?" none (some "b64jpeg") none .text)).1.response
      = "It shows a cat.") ∧
    ((runGraph gwUp (initialState gwUp "What is in this picture?" none (some "b64jpeg") none .text)).1.image_data
      = some "b64jpeg") :=
  claim_C6_amended gwUp "b64jpeg" { analysis := "a cat on a mat", metadata := "ameta" }
    { response := "It shows a cat.", metadata := "tmeta" } (by decide) (fun _ _ => rfl) (fun _ _ => rfl)

/-- C7: `process_message` always returns a dictionary with exactly the
keys response, session_id, message_type, metadata, error — on the normal
path and when graph execution itself throws — and each operation node
converts a collaborator failure into the state's `error` field instead of
propagating it. -/
theorem claim_C7_never_raises (gw : Gateway) (q : String) (iu idata sid : Option String)
    (mt : MessageType) (exc : Option String) :
    ((processMessage gw q iu idata sid mt exc).map Prod.fst =
      ["response", "session_id", "message_type", "metadata", "error"]) ∧
    (∀ s log m, gw.conversationalRun s.question s.session_id = .error m →
      (generateTextNode gw s log).1.error = some m) ∧
    (∀ s log m, pyTruthyOptStr s.image_data = true →
      gw.imageAnalysisRun (s.image_data.getD "")
        ("Analyze this image in the context of this question: " ++ s.question) = .error m →
      (analyzeImageNode gw s log).1.error = some m) ∧
    (∀ s log m, gw.imageGenerationRun s.question "realistic" "" "titan_image" = .error m →
      (generateImageNode gw s log).1.error = some m) := by
  refine ⟨?_, ?_, ?_, ?_⟩
  · cases exc <;> rfl
  · intro s log m h
    unfold generateTextNode
    dsimp only
    rw [h]
  · intro s log m hi h
    unfold analyzeImageNode
    rw [if_pos hi]
    dsimp only
    rw [h]
  · intro s log m h
    unfold generateImageNode
    dsimp only
    rw [h]

/-- Witness for C7 at a concrete failing oracle and concrete state. -/
theorem claim_C7_witness :
    ((processMessage gwDown "hi" none (some "img") (some "s") .text none).map Prod.fst =
      ["response", "session_id", "message_type", "metadata", "error"]) ∧
    (generateTextNode gwDown (initialState gwDown "hi" none (some "img") (some "s") .text) []).1.error
      = some "model unavailable" ∧
    (analyzeImageNode gwDown (initialState gwDown "hi" none (some "img") (some "s") .text) []).1.error
      = some "boom" ∧
    (generateImageNode gwDown (initialState gwDown "hi" none (some "img") (some "s") .text) []).1.error
      = some "boom" :=
  ⟨(claim_C7_never_raises gwDown "hi" none (some "img") (some "s") .text none).1,
   (claim_C7_never_raises gwDown "hi" none (some "img") (some "s") .text none).2.1 _ [] _ rfl,
   (claim_C7_never_raises gwDown "hi" none (some "img") (some "s") .text none).2.2.1 _ [] _ (by decide) rfl,
   (claim_C7_never_raises gwDown "hi" none (some "img") (some "s") .text none).2.2.2 _ [] _ rfl⟩

/-- C9: when an `image_url` download and normalization succeed, the
envelope's message_type is MULTIMODAL, overwriting the declared type; when
no `image_url` is present, the declared type is returned unchanged. -/
theorem claim_C9_mtype_overwrite (gw : Gateway) (q u raw norm : String) (sid : Option String)
    (mt : MessageType)
    (hdl : gw.getImageFromUrl u = some raw) (hraw : raw ≠ "")
    (hnorm : gw.processImageForBedrock raw = .ok norm) :
    (envLookup (processMessage gw q (some u) none sid mt none) "message_type"
      = some (.mtype .multimodal)) ∧
    (∀ (mt' : MessageType) (idata : Option String),
      envLookup (processMessage gw q none idata sid mt' none) "message_type"
        = some (.mtype mt')) := by
  constructor
  · obtain ⟨-, hmt, -, -⟩ := runGraph_master gw (initialState gw q (some u) none sid mt)
    rw [processInput_url_ok_mtype gw q u raw norm sid mt hdl hraw hnorm] at hmt
    unfold processMessage
    dsimp only
    rw [hmt]
    simp [envLookup]
  · intro mt' idata
    obtain ⟨-, hmt, -, -⟩ := runGraph_master gw (initialState gw q none idata sid mt')
    rw [processInput_no_url] at hmt
    dsimp only at hmt
    unfold processMessage
    dsimp only
    rw [hmt]
    simp [envLookup]

/-- Witness for C9 at a concrete all-success oracle. -/
theorem claim_C9_witness :
    (envLookup (processMessage gwUp "hi" (some "http://x/y.jpg") none (some "s") .text none) "message_type"
      = some (.mtype .multimodal)) ∧
    (envLookup (processMessage gwUp "hi" none (some "d") (some "s") .image none) "message_type"
      = some (.mtype .image)) :=
  ⟨(claim_C9_mtype_overwrite gwUp "hi" "http://x/y.jpg" "rawbytes" "processed:rawbytes" (some "s") .text
      rfl (by decide) rfl).1,
   (claim_C9_mtype_overwrite gwUp "hi" "http://x/y.jpg" "rawbytes" "processed:rawbytes" (some "s") .text
      rfl (by decide) rfl).2 .image (some "d")⟩

/-- C10: on every request and for every collaborator behavior (including
input-processing failures) the final trace starts with "input_processing"
followed immediately by "routing", because `_route_request` appends its
step name before checking `error`. -/
theorem claim_C10_trace_starts_input_routing (gw : Gateway) (q : String)
    (iu idata sid : Option String) (mt : MessageType) :
    ((runGraph gw (initialState gw q iu idata sid mt)).1.processing_steps).take 2
      = ["input_processing", "routing"] := by
  obtain ⟨-, -, ⟨rest, hsteps⟩, -⟩ := runGraph_master gw (initialState gw q iu idata sid mt)
  rw [show (initialState gw q iu idata sid mt).processing_steps = [] from rfl,
    List.nil_append] at hsteps
  rw [hsteps]
  rfl

/-- C8 counterexample: a call on an eleven-message history removes the two
oldest entries (trimming to `max_history_length`), so entries are removed
and the length does not grow. -/
theorem claim_C8_counterexample :
    (Msg.human "m0") ∈ histEleven ∧
    (Msg.human "m0") ∉
      ((ConvChain.callStep (fun _ => "ok")
        { conversation_history := histEleven, max_history_length := 10 } "fresh").1).conversation_history ∧
    ((ConvChain.callStep (fun _ => "ok")
        { conversation_history := histEleven, max_history_length := 10 } "fresh").1).conversation_history.length
      = histEleven.length := by decide

/-- C8 amended: the conversational history is bounded, not unbounded: for
any positive `max_history_length` (the constructor default is 10), each
call leaves at most `max_history_length + 1` entries, because the history
is trimmed to its last `max_history_length` entries whenever the user
append exceeds the bound. -/
theorem claim_C8_amended_history_bounded (llm : String → String) (c : ConvChain) (m : String)
    (h : 1 ≤ c.max_history_length) :
    (ConvChain.callStep llm c m).1.conversation_history.length ≤ c.max_history_length + 1 := by
  unfold ConvChain.callStep pyLastSlice
  dsimp only
  by_cases hlen : (c.conversation_history ++ [Msg.human m]).length > c.max_history_length
  · rw [if_pos hlen]
    have hmax : c.max_history_length ≠ 0 := by omega
    rw [if_neg hmax]
    simp only [List.length_append, List.length_drop, List.length_cons, List.length_nil]
    omega
  · rw [if_neg hlen]
    simp only [List.length_append, List.length_cons, List.length_nil] at hlen ⊢
    omega

/-- Witness for the amended C8 bound at the default configuration. -/
theorem claim_C8_amended_witness :
    1 ≤ convChainNew.max_history_length ∧
    (ConvChain.callStep (fun _ => "ok") convChainNew "hi").1.conversation_history.length
      ≤ convChainNew.max_history_length + 1 :=
  ⟨by decide, claim_C8_amended_history_bounded (fun _ => "ok") convChainNew "hi" (by decide)⟩

end AugmentoChat
